import Mathlib

/-!
Verification development for a multi-session Baileys WhatsApp gateway.

The repository consists of several CommonJS variants of one Express server:
`src/server.js` (the primary variant) plus unnamed variants
(`src/unnamed/part_000` .. `part_003`).  The definitions below are a shallow
embedding of the session-lifecycle core of `src/server.js`; where a claim
cites one of the unnamed variants, the relevant function of that variant is
embedded in its own namespace (`P0` for `part_000`, `P1` for `part_001`).

Conventions of the embedding:
* JavaScript `undefined`/`null` values become `Option`; JS falsiness of a
  string-valued expression (`undefined`, `null`, `""`) is `jsFalsyStr`.
* Timestamps (`Date.now()`) are `Nat` milliseconds, passed explicitly.
* The in-memory `sessions` `Map` is a function `String → Option SessionData`.
* External I/O (credential loading, the socket library, `fetch`) is passed in
  as explicit oracle arguments (`Except String _` for fallible calls,
  outcome functions for webhook attempts).
* Logging and filesystem side effects (mkdir/rm of the auth directory) carry
  no session state and are elided; this is noted at each definition.
-/

namespace Baileys

/-- JS falsiness test for a string-or-absent value: `undefined`, `null` and
the empty string are falsy. -/
def jsFalsyStr (s : Option String) : Bool :=
  match s with
  | none => true
  | some v => v = ""

/-- The idiom `sessionId || 'default'` used by every request handler of
`src/server.js` (and `if (!sessionId) sessionId = 'default'` in
`getOrCreateSession`). -/
def jsOrDefault (s : Option String) : String :=
  match s with
  | none => "default"
  | some v => if v = "" then "default" else v

namespace Server

/-- The transport socket handle (`makeWASocket` result), opaque except for
its `user` field; `user` abstracts `sock.user?.id` (absent while the socket
is unauthenticated). -/
structure Sock where
  user : Option String
deriving DecidableEq, Repr

/-- One entry of the `sessions` map of `src/server.js` (line 25):
`{ sock, qrCodeData, qrExpiry, connectionStatus, authState, phoneNumber,
reconnectAttempts }`.  `authState` (the loaded credential pair) carries no
lifecycle information used by any handler and is elided. -/
structure SessionData where
  sock : Option Sock
  qrCodeData : Option String
  qrExpiry : Option Nat
  connectionStatus : String
  phoneNumber : Option String
  reconnectAttempts : Nat
deriving DecidableEq, Repr

/-- The fresh record allocated by `getOrCreateSession` (lines 97-105). -/
def initialSessionData : SessionData :=
  { sock := none
    qrCodeData := none
    qrExpiry := none
    connectionStatus := "disconnected"
    phoneNumber := none
    reconnectAttempts := 0 }

/-- The in-memory `sessions` `Map` keyed by session id. -/
def Sessions : Type := String → Option SessionData

def Sessions.get (m : Sessions) (k : String) : Option SessionData := m k

def Sessions.set (m : Sessions) (k : String) (v : SessionData) : Sessions :=
  fun k' => if k' = k then some v else m k'

def Sessions.erase (m : Sessions) (k : String) : Sessions :=
  fun k' => if k' = k then none else m k'

def Sessions.empty : Sessions := fun _ => none

/-- `getOrCreateSession(sessionId)` (lines 90-116): defaults a falsy id to
`'default'`, returns the existing record or allocates a fresh one.  The
`mkdirSync` of the auth directory is an external filesystem effect and is
elided.  Returns the (possibly grown) map, the resolved id and the record. -/
def getOrCreateSession (m : Sessions) (sessionId : Option String) :
    Sessions × String × SessionData :=
  let sid := jsOrDefault sessionId
  match m.get sid with
  | some d => (m, sid, d)
  | none => (m.set sid initialSessionData, sid, initialSessionData)

/-- `cleanupSession(sessionId)` (lines 121-148): if the session exists, the
socket is logged out (external call, errors swallowed) and dropped, and all
lifecycle fields are reset. -/
def cleanupSession (m : Sessions) (sid : String) : Sessions :=
  match m.get sid with
  | none => m
  | some d =>
      m.set sid
        { d with
          sock := none
          qrCodeData := none
          qrExpiry := none
          connectionStatus := "disconnected"
          phoneNumber := none
          reconnectAttempts := 0 }

/-- The `qr` branch of the `connection.update` handler (lines 200-205):
store the payload, stamp a 60 s expiry, move to `qr_ready`. -/
def onQr (d : SessionData) (qr : String) (now : Nat) : SessionData :=
  { d with
    qrCodeData := some qr
    qrExpiry := some (now + 60000)
    connectionStatus := "qr_ready" }

/-- `sock.user?.id?.split(':')[0] || null` (line 210): the phone number is
the prefix of the user id before the first `':'`; an absent user, absent id
or empty prefix yields `null`. -/
def extractPhone (user : Option String) : Option String :=
  match user with
  | none => none
  | some id =>
      let p := (id.splitOn ":").headD ""
      if p = "" then none else some p

/-- The `connection === 'open'` branch of the handler (lines 208-213):
`user` is the socket's `sock.user?.id` at the moment the transport reports
the connection open (the library sets it before emitting the event, so the
stored socket's user field is updated accordingly).  The webhook emission
and the Supabase user-id lookup touch no session-record field and are
elided. -/
def onOpen (d : SessionData) (user : Option String) : SessionData :=
  { d with
    sock := d.sock.map (fun _ => { user := user })
    connectionStatus := "connected"
    phoneNumber := extractPhone user
    qrCodeData := none
    qrExpiry := none
    reconnectAttempts := 0 }

/-- `DisconnectReason.loggedOut` of the transport library; only its identity
(the comparison `statusCode !== DisconnectReason.loggedOut`) matters. -/
def DisconnectReason_loggedOut : Nat := 401

/-- The `connection === 'close'` branch of the handler (lines 257-284).
`statusCode` is `lastDisconnect?.error?.output?.statusCode` (absent when the
error chain is missing).  Returns the updated record, whether a reconnect
timer was scheduled (`setTimeout(() => createWhatsAppConnection ...)`,
line 280), and the scheduled backoff delay in ms.  The `status-updated`
webhook emission is elided. -/
def onClose (d : SessionData) (statusCode : Option Nat) :
    SessionData × Bool × Nat :=
  let shouldReconnect := statusCode ≠ some DisconnectReason_loggedOut
  let d :=
    { d with
      connectionStatus := "disconnected"
      qrCodeData := none
      qrExpiry := none
      phoneNumber := none }
  if shouldReconnect ∧ d.reconnectAttempts < 3 then
    let d := { d with reconnectAttempts := d.reconnectAttempts + 1 }
    (d, true, 5000 * d.reconnectAttempts)
  else
    (d, false, 0)

/-- Result of a `createWhatsAppConnection` call: the updated registry, the
value returned to (or the exception propagated to) the caller, and whether a
teardown (`cleanupSession`) respectively a new socket construction
(`makeWASocket`) took place during the call. -/
structure ConnectOutcome where
  sessions : Sessions
  result : Except String SessionData
  cleanupCalled : Bool
  socketCreated : Bool

/-- `createWhatsAppConnection(sessionId, options)` of `src/server.js`
(lines 153-191, the synchronous-with-awaits body up to socket creation).

* Already-connected guard (lines 157-164): a session holding a socket with
  `sock.user` set and `connectionStatus === 'connected'` is returned as is.
* Otherwise any existing socket is torn down via `cleanupSession`
  (lines 166-169), `reconnectAttempts` is reset to 0 (line 172), the
  credential state is loaded and the socket built.  `authLoad` is the oracle
  for the awaited external calls `useMultiFileAuthState` /
  `fetchLatestBaileysVersion` / `makeWASocket`: a `.error` models a thrown
  credential-I/O (or similar construction) failure, which the `async`
  function propagates to its caller — `src/server.js` has no `try`/`catch`
  here and never assigns an `'error'` status.
* A fresh socket starts unauthenticated: its `user` is `none`.
* `options.printQR` only configures terminal QR printing and is elided;
  the event-handler registrations (`sock.ev.on`) install the `onQr` /
  `onOpen` / `onClose` logic modelled above and add no immediate effect.

The construction phase (`connectFresh` below, lines 171-191) is reached
after the already-connected guard and the optional teardown: it resets
`reconnectAttempts` to 0 (line 172), then loads credentials / fetches the
version / builds the socket (oracle `authLoad`); on success a fresh
unauthenticated socket is stored, on a thrown failure the error propagates
with no further state change. -/
def connectFresh (m : Sessions) (sid : String) (didCleanup : Bool)
    (authLoad : Except String Unit) : ConnectOutcome :=
  let d := (m.get sid).getD initialSessionData
  let d := { d with reconnectAttempts := 0 }
  let m := m.set sid d
  match authLoad with
  | .error e =>
      { sessions := m, result := .error e
        cleanupCalled := didCleanup, socketCreated := false }
  | .ok _ =>
      let d := { d with sock := some { user := none } }
      { sessions := m.set sid d, result := .ok d
        cleanupCalled := didCleanup, socketCreated := true }

def createWhatsAppConnection (m : Sessions) (sessionId : Option String)
    (authLoad : Except String Unit) : ConnectOutcome :=
  let r := getOrCreateSession m sessionId
  let m := r.1
  let sid := r.2.1
  let d := r.2.2
  let isCurrentlyConnected : Bool :=
    match d.sock with
    | some sk => sk.user.isSome && d.connectionStatus = "connected"
    | none => false
  if isCurrentlyConnected then
    { sessions := m, result := .ok d, cleanupCalled := false, socketCreated := false }
  else if d.sock.isSome then
    connectFresh (cleanupSession m sid) sid true authLoad
  else
    connectFresh m sid false authLoad

/-- `QRCode.toDataURL`: external, pure, stateless payload-to-image encoding,
modelled as an injective tagging of the payload. -/
def renderQR (payload : String) : String := "dataurl:" ++ payload

/-- JSON response of the QR endpoints, with absent fields as `none`. -/
structure QrReply where
  httpStatus : Nat
  status : Option String
  qrcode : Option String
  phone : Option String
  expiresIn : Option Nat
  message : Option String
deriving DecidableEq, Repr

/-- `GET /qrcode` (lines 413-452 of `src/server.js`), reading the registry
at time `now`:
* a falsy `sessionId` query defaults to `'default'`;
* an unknown session answers `{status: 'disconnected', message: ...}`;
* a present-and-truthy QR whose truthy expiry lies strictly in the past is
  cleared from the record as a side effect (lines 423-427);
* a `'connected'` session answers `{status: 'connected', phone}`;
* a (remaining) truthy QR is rendered and answered with the residual
  `expiresIn` seconds; otherwise just the current status is echoed.
Returns the (possibly mutated) registry with the reply. -/
def getQrcode (m : Sessions) (sessionIdQ : Option String) (now : Nat) :
    Sessions × QrReply :=
  let sid := jsOrDefault sessionIdQ
  match m.get sid with
  | none =>
      (m, { httpStatus := 200, status := some "disconnected", qrcode := none
            phone := none, expiresIn := none
            message := some "Sessão não encontrada" })
  | some d =>
      let expired : Bool :=
        !jsFalsyStr d.qrCodeData &&
          match d.qrExpiry with
          | some e => e ≠ 0 && e < now
          | none => false
      let d' := if expired then { d with qrCodeData := none, qrExpiry := none } else d
      let m' := if expired then m.set sid d' else m
      if d'.connectionStatus = "connected" then
        (m', { httpStatus := 200, status := some "connected", qrcode := none
               phone := d'.phoneNumber, expiresIn := none, message := none })
      else if ¬ jsFalsyStr d'.qrCodeData then
        (m', { httpStatus := 200
               status := some d'.connectionStatus
               qrcode := some (renderQR (d'.qrCodeData.getD ""))
               phone := none
               expiresIn := some ((d'.qrExpiry.getD 0 - now) / 1000)
               message := none })
      else
        (m', { httpStatus := 200, status := some d'.connectionStatus
               qrcode := none, phone := none, expiresIn := none, message := none })

/-- Outcome of one webhook delivery attempt as observed by `sendWebhook`:
a 2xx response; a non-2xx response whose body does / does not parse as JSON
(`response.json()` throws on the latter, landing in the `catch`); or a
thrown transport error from `fetch` itself. -/
inductive AttemptOutcome
  | ok
  | httpFail (bodyParses : Bool)
  | netFail
deriving DecidableEq, Repr

/-- Does the attempt end in the `catch` block (a thrown error)? -/
def AttemptOutcome.thrown : AttemptOutcome → Bool
  | .ok => false
  | .httpFail bodyParses => !bodyParses
  | .netFail => true

/-- Observable trace of one `sendWebhook` call: number of `fetch` attempts
made, the inter-attempt gaps in ms (one entry per pair of consecutive
attempts: `2000` when the code awaited its retry delay, `0` when it looped
immediately), and whether some attempt succeeded. -/
structure WebhookTrace where
  attempts : Nat
  gaps : List Nat
  delivered : Bool
deriving DecidableEq, Repr

/-- The retry loop of `sendWebhook` (lines 62-82 of `src/server.js`),
iterating over the attempt indices `[0, ..., retries-1]` of
`for (let i = 0; i < retries; i++)`.  `outcomes i` is the result of the
`i`-th `fetch` attempt.  A 2xx response returns immediately; a non-2xx
response with a JSON body is logged and the loop continues with no delay;
a thrown error (transport failure, or body that fails to parse) is caught
and, when `i < retries - 1`, followed by a 2000 ms delay.  Whenever the
loop proceeds to a further attempt, the gap to that next attempt (2000 or
0 ms) is recorded. -/
def webhookLoop (outcomes : Nat → AttemptOutcome) (retries : Nat) :
    List Nat → WebhookTrace → WebhookTrace
  | [], acc => acc
  | i :: rest, acc =>
      let acc := { acc with attempts := acc.attempts + 1 }
      if outcomes i = .ok then { acc with delivered := true }
      else
        let gap := if (outcomes i).thrown ∧ i < retries - 1 then 2000 else 0
        let acc :=
          if i + 1 < retries then { acc with gaps := acc.gaps ++ [gap] } else acc
        webhookLoop outcomes retries rest acc

/-- `sendWebhook(payload, retries = 3)` (lines 59-85): a no-op when no
webhook URL is configured; otherwise at most `3` attempts.  Every statement
of the loop body sits inside the `try`/`catch` (and the trailing log throws
nothing), so the `async` function always resolves: the result is always
`.ok`, never a propagated exception. -/
def sendWebhook (webhookUrl : Option String)
    (outcomes : Nat → AttemptOutcome) : Except String WebhookTrace :=
  if jsFalsyStr webhookUrl then
    .ok { attempts := 0, gaps := [], delivered := false }
  else
    .ok (webhookLoop outcomes 3 (List.range 3)
      { attempts := 0, gaps := [], delivered := false })

/-- The `x-api-key` middleware `authenticate` (lines 45-52), registered for
every route by `app.use(authenticate)` (line 54) before any route handler:
the request passes iff the header equals the configured `API_KEY`. -/
def authenticate (apiKeyCfg : String) (hdr : Option String) : Bool :=
  hdr = some apiKeyCfg

/-- JSON reply of `GET /health`. -/
structure HealthReply where
  httpStatus : Nat
  status : Option String
  uptime : Option Nat
  sessionsCount : Option Nat
  error : Option String
deriving DecidableEq, Repr

/-- A request to `GET /health` of `src/server.js` as it traverses the app:
the app-wide `authenticate` middleware (line 54) runs first and rejects a
mismatched `x-api-key` with `401 {error: 'Unauthorized'}`; only a matching
key reaches the route handler (lines 350-356), which reports the health
payload. -/
def healthRequest (apiKeyCfg : String) (hdr : Option String)
    (nSessions uptime : Nat) : HealthReply :=
  if authenticate apiKeyCfg hdr then
    { httpStatus := 200, status := some "ok", uptime := some uptime
      sessionsCount := some nSessions, error := none }
  else
    { httpStatus := 401, status := none, uptime := none
      sessionsCount := none, error := some "Unauthorized" }

/-- JSON reply of `POST /send-message`. -/
structure SendReply where
  httpStatus : Nat
  success : Bool
  errorMsg : Option String
deriving DecidableEq, Repr

/-- `POST /send-message` (lines 490-514).  `transportSend` is the oracle for
`sock.sendMessage(jid, {text})` (a thrown rejection becomes the 500 branch
of the handler's `catch`).  Returns the reply together with the list of
`(jid, text)` transport send calls performed; the handler never mutates the
session record, so the registry is returned untouched. -/
def sendMessageHandler (m : Sessions) (sessionId phone message : Option String)
    (transportSend : String → String → Except String Unit) :
    Sessions × SendReply × List (String × String) :=
  let sid := jsOrDefault sessionId
  if jsFalsyStr phone || jsFalsyStr message then
    (m, { httpStatus := 400, success := false
          errorMsg := some "phone e message são obrigatórios" }, [])
  else
    let p := phone.getD ""
    let msg := message.getD ""
    match m.get sid with
    | none =>
        (m, { httpStatus := 400, success := false
              errorMsg := some "WhatsApp não conectado" }, [])
    | some d =>
        if d.sock = none ∨ d.connectionStatus ≠ "connected" then
          (m, { httpStatus := 400, success := false
                errorMsg := some "WhatsApp não conectado" }, [])
        else
          let jid := if p.contains '@' then p else p ++ "@s.whatsapp.net"
          match transportSend jid msg with
          | .ok _ =>
              (m, { httpStatus := 200, success := true, errorMsg := none },
               [(jid, msg)])
          | .error e =>
              (m, { httpStatus := 500, success := false, errorMsg := some e },
               [(jid, msg)])

/-- JSON reply of `POST /create-session`. -/
structure CreateReply where
  httpStatus : Nat
  success : Bool
  status : Option String
  qrcode : Option String
  phone : Option String
  id : Option String
  expiresIn : Option Nat
  message : Option String
  errorMsg : Option String
deriving DecidableEq, Repr

/-- `POST /create-session` (lines 359-401): resolves the session id,
runs `createWhatsAppConnection`, sleeps 3 s (`duringWait` is the registry
evolution produced by transport events interleaving during that await),
then answers from the session record it re-reads.  A construction failure
is caught by the handler's `try`/`catch` and becomes a 500 reply. -/
def createSessionHandler (m : Sessions) (sessionId : Option String)
    (authLoad : Except String Unit) (duringWait : Sessions → Sessions) :
    Sessions × CreateReply :=
  let sid := jsOrDefault sessionId
  let out := createWhatsAppConnection m (some sid) authLoad
  match out.result with
  | .error e =>
      (out.sessions,
       { httpStatus := 500, success := false, status := none, qrcode := none
         phone := none, id := none, expiresIn := none, message := none
         errorMsg := some e })
  | .ok _ =>
      let m := duringWait out.sessions
      let d := (m.get sid).getD initialSessionData
      if d.connectionStatus = "connected" then
        (m, { httpStatus := 200, success := true, status := some "connected"
              qrcode := none, phone := d.phoneNumber, id := none
              expiresIn := none, message := none, errorMsg := none })
      else if ¬ jsFalsyStr d.qrCodeData then
        (m, { httpStatus := 200, success := true
              status := some d.connectionStatus
              qrcode := some (renderQR (d.qrCodeData.getD ""))
              phone := none, id := some sid, expiresIn := some 60
              message := none, errorMsg := none })
      else
        (m, { httpStatus := 200, success := true
              status := some d.connectionStatus, qrcode := none, phone := none
              id := none, expiresIn := none
              message := some "Sessão criada, aguarde QR code"
              errorMsg := none })

/-- `handleDisconnect` (lines 329-343), the shared body of
`POST /disconnect` and `POST /logout`: resolves the id and runs
`cleanupSession`; credentials are retained. -/
def handleDisconnect (m : Sessions) (sessionId : Option String) : Sessions :=
  cleanupSession m (jsOrDefault sessionId)

/-- `DELETE /session/:sessionId?` (lines 465-487): resolves the id, runs
`cleanupSession`, removes the auth directory (external filesystem effect,
elided) and deletes the record from the registry. -/
def deleteSessionHandler (m : Sessions) (sessionIdParam : Option String) :
    Sessions :=
  let sid := jsOrDefault sessionIdParam
  (cleanupSession m sid).erase sid

end Server

namespace P0

/-- `GET /health` of `src/unnamed/part_000` (lines 258-265): registered in
the public block, before any `requireApiKey` guard and with no app-wide
middleware, so the reply is the health payload whatever the `x-api-key`
header holds. -/
def healthRequest (hdr : Option String) (nSessions : Nat) (timestamp : String) :
    Server.HealthReply :=
  { httpStatus := 200, status := some "ok", uptime := none
    sessionsCount := some nSessions, error := none }

end P0

namespace P3

/-- `GET /health` of `src/unnamed/part_003` (first document, lines 179-186,
commented "Health (público)"): registered with no `requireApiKey` guard and
no app-wide middleware, so the reply is the health payload whatever the
`x-api-key` header holds.  Its payload carries an ISO `time` string instead
of an uptime; the string timestamp is elided from the reply record. -/
def healthRequest (hdr : Option String) (nSessions : Nat) (time : String) :
    Server.HealthReply :=
  { httpStatus := 200, status := some "ok", uptime := none
    sessionsCount := some nSessions, error := none }

end P3

namespace P1

/-- One session record of `src/unnamed/part_001` (`getOrCreateSession`,
lines 47-61); `sessionId` and `authPath` are derivable constants and
elided. -/
structure SessionData where
  socket : Option Server.Sock
  qr : Option String
  status : String
  phone : Option String
  retryCount : Nat
  lastQrTime : Option Nat
deriving DecidableEq, Repr

/-- Connect options of `part_001`'s `createWhatsAppConnection`. -/
structure Opts where
  force : Bool
  fresh : Bool
deriving DecidableEq, Repr

/-- The effect of `part_001`'s `cleanupSession` (lines 91-119) on the
session record: socket logged out (errors swallowed) and dropped, all
fields reset; the auth-directory removal is an external effect. -/
def cleanupRecord (s : SessionData) : SessionData :=
  { s with
    socket := none
    qr := none
    status := "disconnected"
    phone := none
    retryCount := 0
    lastQrTime := none }

/-- `createWhatsAppConnection(sessionId, opts)` of `src/unnamed/part_001`
(lines 121-236), acting on the session's record (the registry lookup
`getOrCreateSession` is the identity on an existing record and is elided):
`force`/`fresh` wipes the record, otherwise a held socket is closed; then
the whole construction (`useMultiFileAuthState`, `fetchLatestBaileysVersion`,
`makeWASocket` — oracle `construct`) runs inside `try`: on success a fresh
unauthenticated socket is stored with status `'connecting'`; the `catch`
block (lines 230-235) sets `status = 'error'`, drops the socket and
rethrows the error to the caller. -/
def createWhatsAppConnection (s : SessionData) (opts : Opts)
    (construct : Except String Unit) (now : Nat) :
    SessionData × Except String Unit :=
  let s :=
    if opts.force || opts.fresh then cleanupRecord s
    else if s.socket.isSome then { s with socket := none }
    else s
  match construct with
  | .error e => ({ s with status := "error", socket := none }, .error e)
  | .ok _ =>
      ({ s with
          socket := some { user := none }
          status := "connecting"
          qr := none
          lastQrTime := some now }, .ok ())

end P1

namespace Server

/-- Events driving one session's reconnect behaviour in `src/server.js`:
a transport `close` with the given disconnect status code (the `onClose`
branch), and the firing of a reconnect timer previously scheduled by
`setTimeout(() => createWhatsAppConnection(sessionId, options), delay)`
(line 280). -/
inductive Ev
  | close (statusCode : Option Nat)
  | timerFire
deriving DecidableEq, Repr

/-- Execution state of the reconnect behaviour of one session (`traceSid`):
the registry, the number of scheduled-but-not-yet-fired reconnect timers,
and a history counter of how many automatic reconnects were ever
scheduled. -/
structure TraceState where
  sessions : Sessions
  pendingTimers : Nat
  totalScheduled : Nat

/-- The session id observed by the reconnect trace semantics. -/
def traceSid : String := "s"

/-- One step of the reconnect semantics, directly from the source:
a `close` event runs the `onClose` branch on the session's record and — when
that branch calls `setTimeout` — one more timer becomes pending and the
history counter increases; a `timerFire` consumes a pending timer by running
its callback `createWhatsAppConnection(sessionId, options)` (with the
external construction succeeding). -/
def stepEv (st : TraceState) (e : Ev) : TraceState :=
  match e with
  | .close c =>
      match st.sessions.get traceSid with
      | none => st
      | some d =>
          let r := onClose d c
          { sessions := st.sessions.set traceSid r.1
            pendingTimers := st.pendingTimers + (if r.2.1 then 1 else 0)
            totalScheduled := st.totalScheduled + (if r.2.1 then 1 else 0) }
  | .timerFire =>
      if st.pendingTimers = 0 then st
      else
        { sessions := (createWhatsAppConnection st.sessions (some traceSid) (.ok ())).sessions
          pendingTimers := st.pendingTimers - 1
          totalScheduled := st.totalScheduled }

/-- Start state: the session freshly allocated, no timers, nothing ever
scheduled. -/
def initTrace : TraceState :=
  { sessions := Sessions.empty.set traceSid initialSessionData
    pendingTimers := 0
    totalScheduled := 0 }

/-- Run a sequence of reconnect-relevant events from the start state. -/
def runTrace (es : List Ev) : TraceState := es.foldl stepEv initTrace

/-- Every record of the registry respects the reconnect cap of 3. -/
def MapInv (m : Sessions) : Prop :=
  ∀ k d, m.get k = some d → d.reconnectAttempts ≤ 3

/-- Is the event a transport closure? -/
def Ev.isClose : Ev → Bool
  | .close _ => true
  | .timerFire => false

end Server

/-! ### Shared helper lemmas -/

theorem Server.Sessions.get_set (m : Server.Sessions) (k : String)
    (v : Server.SessionData) (k' : String) :
    (m.set k v).get k' = if k' = k then some v else m.get k' := rfl

theorem jsOrDefault_of_falsy (s : Option String) (h : jsFalsyStr s = true) :
    jsOrDefault s = "default" := by
  cases s with
  | none => rfl
  | some v =>
      simp only [jsFalsyStr, decide_eq_true_eq] at h
      simp [jsOrDefault, h]

/-! ### C3: authentication of GET /health -/

/-- C3 counterexample: with the default configured key, a `GET /health`
request carrying no `x-api-key` header is answered `401 Unauthorized` by
`src/server.js` (the app-wide middleware runs before the route), not the
health payload — refuting the claim that `/health` is public and never
answers 401. -/
theorem c3_health_counterexample :
    (Server.healthRequest "your-secret-key-here" none 5 100).httpStatus = 401 ∧
    (Server.healthRequest "your-secret-key-here" none 5 100).status = none := by
  decide

/-- C3 (amended): in `src/server.js`, `GET /health` sits behind the same
`x-api-key` middleware as every route — the health payload is returned
exactly when the header matches the configured key, and any other request
receives `401 Unauthorized`; the `part_000` and `part_003` variants
register `/health` publicly (no `requireApiKey` guard, no app-wide
middleware) and serve the health payload whatever the header holds. -/
theorem c3_health_amended (key : String) (hdr : Option String)
    (n u : Nat) (ts : String) :
    Server.healthRequest key hdr n u =
      (if hdr = some key then
        { httpStatus := 200, status := some "ok", uptime := some u
          sessionsCount := some n, error := none }
      else
        { httpStatus := 401, status := none, uptime := none
          sessionsCount := none, error := some "Unauthorized" }) ∧
    P0.healthRequest hdr n ts =
      { httpStatus := 200, status := some "ok", uptime := none
        sessionsCount := some n, error := none } ∧
    P3.healthRequest hdr n ts =
      { httpStatus := 200, status := some "ok", uptime := none
        sessionsCount := some n, error := none } := by
  refine ⟨?_, rfl, rfl⟩
  simp only [Server.healthRequest, Server.authenticate]
  split <;> simp_all

/-! ### C5: connect on an already-connected session is a no-op -/

/-- C5: if the session already holds a socket with an authenticated user and
`connectionStatus = 'connected'`, `createWhatsAppConnection` returns the
existing record with the registry untouched, and performs neither a teardown
(`cleanupSession`) nor a new socket construction. -/
theorem c5_connect_noop (m : Server.Sessions) (sidOpt : Option String)
    (al : Except String Unit) (d : Server.SessionData) (sk : Server.Sock)
    (hget : m.get (jsOrDefault sidOpt) = some d)
    (hsock : d.sock = some sk) (huser : sk.user.isSome = true)
    (hconn : d.connectionStatus = "connected") :
    Server.createWhatsAppConnection m sidOpt al =
      { sessions := m, result := .ok d
        cleanupCalled := false, socketCreated := false } := by
  simp [Server.createWhatsAppConnection, Server.getOrCreateSession,
    hget, hsock, huser, hconn]

/-- C5 witness: a concrete connected session; connect returns it unchanged
with no teardown and no new socket. -/
theorem c5_connect_noop_witness :
    Server.createWhatsAppConnection
      (Server.Sessions.empty.set "a"
        { sock := some { user := some "5511999999999:7@s.whatsapp.net" }
          qrCodeData := none, qrExpiry := none
          connectionStatus := "connected"
          phoneNumber := some "5511999999999", reconnectAttempts := 0 })
      (some "a") (.ok ()) =
      { sessions :=
          Server.Sessions.empty.set "a"
            { sock := some { user := some "5511999999999:7@s.whatsapp.net" }
              qrCodeData := none, qrExpiry := none
              connectionStatus := "connected"
              phoneNumber := some "5511999999999", reconnectAttempts := 0 }
        result := .ok
          { sock := some { user := some "5511999999999:7@s.whatsapp.net" }
            qrCodeData := none, qrExpiry := none
            connectionStatus := "connected"
            phoneNumber := some "5511999999999", reconnectAttempts := 0 }
        cleanupCalled := false, socketCreated := false } :=
  c5_connect_noop _ _ _ _ { user := some "5511999999999:7@s.whatsapp.net" }
    (by decide) rfl rfl rfl

/-! ### C6: logged-out closures never reconnect; other codes are uniform -/

/-- C6: a closure whose status code is `DisconnectReason.loggedOut` never
schedules a reconnect, whatever the current `reconnectAttempts`; and the
close handler treats all non-logged-out status codes identically — the
logged-out comparison is the only way the code influences the outcome. -/
theorem c6_logged_out_terminal (d : Server.SessionData) (c₁ c₂ : Option Nat)
    (h₁ : c₁ ≠ some Server.DisconnectReason_loggedOut)
    (h₂ : c₂ ≠ some Server.DisconnectReason_loggedOut) :
    (Server.onClose d (some Server.DisconnectReason_loggedOut)).2.1 = false ∧
    Server.onClose d c₁ = Server.onClose d c₂ := by
  constructor
  · simp [Server.onClose]
  · simp [Server.onClose, h₁, h₂]

/-- C6 witness: a concrete stream-errored closure (code 515) and an absent
status code behave identically, and a logged-out closure schedules nothing
even at `reconnectAttempts = 0`. -/
theorem c6_logged_out_terminal_witness :
    (Server.onClose Server.initialSessionData
        (some Server.DisconnectReason_loggedOut)).2.1 = false ∧
    Server.onClose Server.initialSessionData (some 515) =
      Server.onClose Server.initialSessionData none :=
  c6_logged_out_terminal Server.initialSessionData (some 515) none
    (by decide) (by decide)

/-! ### C10: falsy session ids resolve to the literal 'default' -/

/-- C10: every endpoint that accepts an optional session id — create-session,
disconnect/logout (`handleDisconnect`), DELETE /session, send-message and
GET /qrcode — treats a missing or empty (falsy) id exactly as the literal
`'default'`, and `getOrCreateSession` on a falsy id resolves to (and keys
the allocated record by) `'default'`. -/
theorem c10_default_session_id (m : Server.Sessions) (sid : Option String)
    (h : jsFalsyStr sid = true) (al : Except String Unit)
    (dw : Server.Sessions → Server.Sessions)
    (p msg : Option String)
    (ts : String → String → Except String Unit) (now : Nat) :
    jsOrDefault sid = "default" ∧
    Server.getOrCreateSession m sid = Server.getOrCreateSession m (some "default") ∧
    (Server.getOrCreateSession m sid).2.1 = "default" ∧
    Server.createSessionHandler m sid al dw =
      Server.createSessionHandler m (some "default") al dw ∧
    Server.handleDisconnect m sid = Server.handleDisconnect m (some "default") ∧
    Server.deleteSessionHandler m sid =
      Server.deleteSessionHandler m (some "default") ∧
    Server.sendMessageHandler m sid p msg ts =
      Server.sendMessageHandler m (some "default") p msg ts ∧
    Server.getQrcode m sid now = Server.getQrcode m (some "default") now := by
  have hres : jsOrDefault sid = "default" := jsOrDefault_of_falsy sid h
  have hres' : jsOrDefault (some "default") = "default" := rfl
  refine ⟨hres, ?_, ?_, ?_, ?_, ?_, ?_, ?_⟩
  · simp only [Server.getOrCreateSession, hres, hres']
  · simp only [Server.getOrCreateSession, hres, hres']
    cases m.get "default" <;> rfl
  · simp only [Server.createSessionHandler, hres, hres']
  · simp only [Server.handleDisconnect, hres, hres']
  · simp only [Server.deleteSessionHandler, hres, hres']
  · simp only [Server.sendMessageHandler, hres, hres']
  · simp only [Server.getQrcode, hres, hres']

/-- C10 witness: at a completely absent session id, all id-resolving
operations coincide with their `'default'` forms on an empty registry. -/
theorem c10_default_session_id_witness :
    jsOrDefault none = "default" ∧
    Server.getOrCreateSession Server.Sessions.empty none =
      Server.getOrCreateSession Server.Sessions.empty (some "default") ∧
    (Server.getOrCreateSession Server.Sessions.empty none).2.1 = "default" ∧
    Server.createSessionHandler Server.Sessions.empty none (.ok ()) id =
      Server.createSessionHandler Server.Sessions.empty (some "default") (.ok ()) id ∧
    Server.handleDisconnect Server.Sessions.empty none =
      Server.handleDisconnect Server.Sessions.empty (some "default") ∧
    Server.deleteSessionHandler Server.Sessions.empty none =
      Server.deleteSessionHandler Server.Sessions.empty (some "default") ∧
    Server.sendMessageHandler Server.Sessions.empty none (some "5511888888888")
        (some "hi") (fun _ _ => .ok ()) =
      Server.sendMessageHandler Server.Sessions.empty (some "default")
        (some "5511888888888") (some "hi") (fun _ _ => .ok ()) ∧
    Server.getQrcode Server.Sessions.empty none 1000 =
      Server.getQrcode Server.Sessions.empty (some "default") 1000 :=
  c10_default_session_id Server.Sessions.empty none rfl (.ok ()) id
    (some "5511888888888") (some "hi") (fun _ _ => .ok ()) 1000

/-! ### C9: POST /send-message gating and phone normalization -/

/-- C9: with truthy `phone` and `message`, `/send-message` (1) rejects with
the 400 "WhatsApp não conectado" reply and performs no transport send when
the target session is absent, holds no socket, or is in any state other than
`'connected'`; (2) answers success only if the session existed with a socket
in `'connected'` state; (3) never mutates the registry; and (4) when the
session is connected, sends exactly one message whose JID is the phone
itself when it contains `'@'` and `phone ++ "@s.whatsapp.net"` otherwise. -/
theorem c9_send_message (m : Server.Sessions) (si p msg : Option String)
    (ts : String → String → Except String Unit)
    (hp : jsFalsyStr p = false) (hm : jsFalsyStr msg = false) :
    ((∀ d, m.get (jsOrDefault si) = some d →
        d.sock = none ∨ ¬ d.connectionStatus = "connected") →
      Server.sendMessageHandler m si p msg ts =
        (m, { httpStatus := 400, success := false
              errorMsg := some "WhatsApp não conectado" }, [])) ∧
    ((Server.sendMessageHandler m si p msg ts).2.1.success = true →
      ∃ d, m.get (jsOrDefault si) = some d ∧ d.sock.isSome = true ∧
        d.connectionStatus = "connected") ∧
    (Server.sendMessageHandler m si p msg ts).1 = m ∧
    (∀ d, m.get (jsOrDefault si) = some d → d.sock.isSome = true →
      d.connectionStatus = "connected" →
      (Server.sendMessageHandler m si p msg ts).2.2 =
        [(if (p.getD "").contains '@' then p.getD ""
          else (p.getD "") ++ "@s.whatsapp.net", msg.getD "")]) := by
  refine ⟨?_, ?_, ?_, ?_⟩
  · intro hrej
    simp only [Server.sendMessageHandler, hp, hm, Bool.or_self,
      Bool.false_eq_true, if_false]
    cases hg : m.get (jsOrDefault si) with
    | none => rfl
    | some d =>
        have hd := hrej d hg
        dsimp only
        rw [if_pos hd]
  · intro hsucc
    simp only [Server.sendMessageHandler, hp, hm, Bool.or_self,
      Bool.false_eq_true, if_false] at hsucc
    cases hg : m.get (jsOrDefault si) with
    | none => rw [hg] at hsucc; simp at hsucc
    | some d =>
        rw [hg] at hsucc; dsimp only at hsucc
        by_cases hcond : d.sock = none ∨ d.connectionStatus ≠ "connected"
        · rw [if_pos hcond] at hsucc; simp at hsucc
        · push_neg at hcond
          refine ⟨d, rfl, ?_, hcond.2⟩
          rw [Option.isSome_iff_ne_none]
          exact hcond.1
  · simp only [Server.sendMessageHandler]
    split
    · rfl
    · cases hg : m.get (jsOrDefault si) with
      | none => rfl
      | some d =>
          dsimp only
          split
          · rfl
          · cases ts (if (p.getD "").contains '@' then p.getD ""
                else (p.getD "") ++ "@s.whatsapp.net") (msg.getD "") <;> rfl
  · intro d hg hsock hconn
    have hnn : d.sock ≠ none := by
      rw [← Option.isSome_iff_ne_none]; exact hsock
    simp only [Server.sendMessageHandler, hp, hm, Bool.or_self,
      Bool.false_eq_true, if_false, hg]
    rw [if_neg (by push_neg; exact ⟨hnn, hconn⟩)]
    cases ts (if (p.getD "").contains '@' then p.getD ""
        else (p.getD "") ++ "@s.whatsapp.net") (msg.getD "") <;> rfl

/-- C9 witness: a concrete connected session `"acct1"` with phone
`5511888888888` (no `'@'`): the handler reports success, leaves the registry
alone, and sends exactly one message to `5511888888888@s.whatsapp.net`. -/
theorem c9_send_message_witness :
    (Server.sendMessageHandler
        (Server.Sessions.empty.set "acct1"
          { sock := some { user := some "5511999999999:7" }
            qrCodeData := none, qrExpiry := none
            connectionStatus := "connected"
            phoneNumber := some "5511999999999", reconnectAttempts := 0 })
        (some "acct1") (some "5511888888888") (some "hi")
        (fun _ _ => .ok ())).1 =
      Server.Sessions.empty.set "acct1"
        { sock := some { user := some "5511999999999:7" }
          qrCodeData := none, qrExpiry := none
          connectionStatus := "connected"
          phoneNumber := some "5511999999999", reconnectAttempts := 0 } ∧
    (Server.sendMessageHandler
        (Server.Sessions.empty.set "acct1"
          { sock := some { user := some "5511999999999:7" }
            qrCodeData := none, qrExpiry := none
            connectionStatus := "connected"
            phoneNumber := some "5511999999999", reconnectAttempts := 0 })
        (some "acct1") (some "5511888888888") (some "hi")
        (fun _ _ => .ok ())).2.2 =
      [(if ("5511888888888" : String).contains '@' then "5511888888888"
        else ("5511888888888" : String) ++ "@s.whatsapp.net", "hi")] :=
  ⟨(c9_send_message _ (some "acct1") (some "5511888888888") (some "hi")
      (fun _ _ => .ok ()) rfl rfl).2.2.1,
   (c9_send_message _ (some "acct1") (some "5511888888888") (some "hi")
      (fun _ _ => .ok ()) rfl rfl).2.2.2
      { sock := some { user := some "5511999999999:7" }
        qrCodeData := none, qrExpiry := none
        connectionStatus := "connected"
        phoneNumber := some "5511999999999", reconnectAttempts := 0 }
      (by decide) rfl rfl⟩

/-! ### C2: QR freshness window and post-expiry reads -/

/-- C2 counterexample: issue the payload `"XYZ"` at t = 0 (the `qr` branch
sets `qr_ready` with a 60 s expiry) and read `/qrcode` at t = 65 s.  The
read clears the snapshot and returns no QR — but its `status` is
`"qr_ready"` (the `connectionStatus` the session still carries), not
`"disconnected"` or `"connecting"` as the claim requires: the expiry check
clears only `qrCodeData`/`qrExpiry` and never touches `connectionStatus`. -/
theorem c2_qr_expiry_counterexample :
    (Server.getQrcode
        (Server.Sessions.empty.set "acct1"
          (Server.onQr Server.initialSessionData "XYZ" 0))
        (some "acct1") 65000).2.qrcode = none ∧
    (Server.getQrcode
        (Server.Sessions.empty.set "acct1"
          (Server.onQr Server.initialSessionData "XYZ" 0))
        (some "acct1") 65000).2.status = some "qr_ready" ∧
    (("qr_ready" : String) ≠ "disconnected" ∧ ("qr_ready" : String) ≠ "connecting") := by
  decide

/-- C2 (amended): for a session holding a nonempty QR payload `q` issued
with expiry `T + 60000` and a `connectionStatus` other than `'connected'`:
a `/qrcode` read at `now ≤ T + 60000` returns the rendered payload (with
the residual `expiresIn`) and leaves the registry untouched; a read at
`now > T + 60000` clears the snapshot as a side effect and returns a reply
with no QR whose `status` merely echoes the session's current
`connectionStatus` — after an un-superseded issue that status is
`'qr_ready'`, not necessarily `'disconnected'` or `'connecting'`. -/
theorem c2_qr_expiry_amended (m : Server.Sessions) (sidOpt : Option String)
    (d : Server.SessionData) (q s : String) (T now : Nat)
    (hget : m.get (jsOrDefault sidOpt) = some d)
    (hq : d.qrCodeData = some q) (hq0 : q ≠ "")
    (he : d.qrExpiry = some (T + 60000))
    (hs : d.connectionStatus = s) (hsc : s ≠ "connected") :
    (now ≤ T + 60000 →
      Server.getQrcode m sidOpt now =
        (m, { httpStatus := 200, status := some s
              qrcode := some (Server.renderQR q), phone := none
              expiresIn := some ((T + 60000 - now) / 1000), message := none })) ∧
    (T + 60000 < now →
      Server.getQrcode m sidOpt now =
        (m.set (jsOrDefault sidOpt) { d with qrCodeData := none, qrExpiry := none },
         { httpStatus := 200, status := some s, qrcode := none
           phone := none, expiresIn := none, message := none })) := by
  constructor
  · intro hle
    have hexp :
        (!jsFalsyStr d.qrCodeData &&
          match d.qrExpiry with
          | some e => e ≠ 0 && e < now
          | none => false) = false := by
      rw [hq, he]
      simp only [jsFalsyStr]
      have hno : ¬ (T + 60000 < now) := by omega
      simp [hno]
    simp only [Server.getQrcode, hget, hexp, Bool.false_eq_true, if_false]
    rw [hs, hq, he]
    simp [jsFalsyStr, hq0, hsc]
  · intro hlt
    have hexp :
        (!jsFalsyStr d.qrCodeData &&
          match d.qrExpiry with
          | some e => e ≠ 0 && e < now
          | none => false) = true := by
      rw [hq, he]
      simp only [jsFalsyStr]
      have h1 : T + 60000 ≠ 0 := by omega
      simp [hq0, h1, hlt]
    simp only [Server.getQrcode, hget, hexp, if_true]
    rw [hs]
    simp [jsFalsyStr, hsc]

/-- C2 witness: the scenario of the claim — payload `"XYZ"` issued at t = 0,
read at t = 10 s returns the rendered payload with 50 s left; read at
t = 65 s clears the snapshot and returns no QR with the echoed status. -/
theorem c2_qr_expiry_witness :
    Server.getQrcode
        (Server.Sessions.empty.set "acct1"
          (Server.onQr Server.initialSessionData "XYZ" 0))
        (some "acct1") 10000 =
      (Server.Sessions.empty.set "acct1"
          (Server.onQr Server.initialSessionData "XYZ" 0),
       { httpStatus := 200, status := some "qr_ready"
         qrcode := some (Server.renderQR "XYZ"), phone := none
         expiresIn := some ((0 + 60000 - 10000) / 1000), message := none }) ∧
    Server.getQrcode
        (Server.Sessions.empty.set "acct1"
          (Server.onQr Server.initialSessionData "XYZ" 0))
        (some "acct1") 65000 =
      ((Server.Sessions.empty.set "acct1"
          (Server.onQr Server.initialSessionData "XYZ" 0)).set "acct1"
          { Server.onQr Server.initialSessionData "XYZ" 0 with
            qrCodeData := none, qrExpiry := none },
       { httpStatus := 200, status := some "qr_ready", qrcode := none
         phone := none, expiresIn := none, message := none }) :=
  ⟨(c2_qr_expiry_amended
      (Server.Sessions.empty.set "acct1"
        (Server.onQr Server.initialSessionData "XYZ" 0))
      (some "acct1") (Server.onQr Server.initialSessionData "XYZ" 0)
      "XYZ" "qr_ready" 0 10000
      (by decide) rfl (by decide) rfl rfl (by decide)).1 (by omega),
   (c2_qr_expiry_amended
      (Server.Sessions.empty.set "acct1"
        (Server.onQr Server.initialSessionData "XYZ" 0))
      (some "acct1") (Server.onQr Server.initialSessionData "XYZ" 0)
      "XYZ" "qr_ready" 0 65000
      (by decide) rfl (by decide) rfl rfl (by decide)).2 (by omega)⟩

/-! ### C7: QR/phone fields across open and disconnect transitions -/

/-- C7 counterexample: the open branch computes the phone as
`sock.user?.id?.split(':')[0] || null` — when the transport reports the
connection open without a user id, the session becomes `'connected'` with a
null `phoneNumber`, refuting the claim that `phoneNumber` is non-null
immediately after every authenticated transition. -/
theorem c7_counterexample :
    (Server.onOpen
        { Server.initialSessionData with sock := some { user := none } }
        none).connectionStatus = "connected" ∧
    (Server.onOpen
        { Server.initialSessionData with sock := some { user := none } }
        none).phoneNumber = none := by
  decide

/-- C7 (amended): after an open transition the QR snapshot is cleared and
`phoneNumber` equals the prefix of the transport-reported user id before
`':'` — non-null exactly when the transport supplies an id with a nonempty
prefix, null otherwise; after a close transition, and for the record left
by an explicit disconnect (`cleanupSession`), QR snapshot and `phoneNumber`
are both null. -/
theorem c7_amended (d : Server.SessionData) (u : Option String)
    (c : Option Nat) (m : Server.Sessions) (sid : String) :
    ((Server.onOpen d u).qrCodeData = none ∧
      (Server.onOpen d u).qrExpiry = none ∧
      (Server.onOpen d u).phoneNumber = Server.extractPhone u) ∧
    ((Server.onClose d c).1.connectionStatus = "disconnected" ∧
      (Server.onClose d c).1.qrCodeData = none ∧
      (Server.onClose d c).1.qrExpiry = none ∧
      (Server.onClose d c).1.phoneNumber = none) ∧
    (∀ d', (Server.cleanupSession m sid).get sid = some d' →
      d'.connectionStatus = "disconnected" ∧ d'.qrCodeData = none ∧
        d'.qrExpiry = none ∧ d'.phoneNumber = none) := by
  refine ⟨⟨rfl, rfl, rfl⟩, ?_, ?_⟩
  · unfold Server.onClose
    dsimp only
    split <;> exact ⟨rfl, rfl, rfl, rfl⟩
  · intro d' hd'
    unfold Server.cleanupSession at hd'
    cases hg : m.get sid with
    | none =>
        rw [hg] at hd'
        dsimp only at hd'
        rw [hg] at hd'
        simp at hd'
    | some d0 =>
        rw [hg] at hd'
        rw [Server.Sessions.get_set] at hd'
        rw [if_pos rfl] at hd'
        cases hd'
        exact ⟨rfl, rfl, rfl, rfl⟩

/-- C7 witness: a concrete open with user id `"5511999999999:7@x"` yields
phone `"5511999999999"` with the QR cleared; a concrete close and a concrete
cleanup both leave QR and phone null. -/
theorem c7_amended_witness :
    ((Server.onOpen (Server.onQr Server.initialSessionData "XYZ" 0)
        (some "5511999999999:7@x")).qrCodeData = none ∧
      (Server.onOpen (Server.onQr Server.initialSessionData "XYZ" 0)
        (some "5511999999999:7@x")).qrExpiry = none ∧
      (Server.onOpen (Server.onQr Server.initialSessionData "XYZ" 0)
        (some "5511999999999:7@x")).phoneNumber =
        Server.extractPhone (some "5511999999999:7@x")) ∧
    ((Server.onClose (Server.onQr Server.initialSessionData "XYZ" 0)
        (some 515)).1.connectionStatus = "disconnected" ∧
      (Server.onClose (Server.onQr Server.initialSessionData "XYZ" 0)
        (some 515)).1.qrCodeData = none ∧
      (Server.onClose (Server.onQr Server.initialSessionData "XYZ" 0)
        (some 515)).1.qrExpiry = none ∧
      (Server.onClose (Server.onQr Server.initialSessionData "XYZ" 0)
        (some 515)).1.phoneNumber = none) ∧
    (∀ d', (Server.cleanupSession
        (Server.Sessions.empty.set "a"
          (Server.onQr Server.initialSessionData "XYZ" 0)) "a").get "a" =
          some d' →
      d'.connectionStatus = "disconnected" ∧ d'.qrCodeData = none ∧
        d'.qrExpiry = none ∧ d'.phoneNumber = none) :=
  c7_amended (Server.onQr Server.initialSessionData "XYZ" 0)
    (some "5511999999999:7@x") (some 515)
    (Server.Sessions.empty.set "a"
      (Server.onQr Server.initialSessionData "XYZ" 0)) "a"

/-! ### C4: failures while constructing a transport handle -/

/-- C4 counterexample: in `src/server.js`, a credential-I/O failure while
connecting a fresh session propagates to the caller, but the session's
state is left `'disconnected'` — `src/server.js` never assigns an
`'error'` status, refuting the claim that the state is set to `'error'`. -/
theorem c4_counterexample :
    (Server.createWhatsAppConnection Server.Sessions.empty (some "s")
        (.error "EACCES: cannot read creds.json")).result =
      .error "EACCES: cannot read creds.json" ∧
    ((Server.createWhatsAppConnection Server.Sessions.empty (some "s")
        (.error "EACCES: cannot read creds.json")).sessions.get "s").map
        (fun d => d.connectionStatus) = some "disconnected" ∧
    (("disconnected" : String) ≠ "error") := by
  refine ⟨rfl, rfl, by decide⟩

/-- C4 (amended): a failure constructing the transport handle is surfaced
to the immediate caller of connect in both variants; `src/server.js` leaves
a fresh session's state `'disconnected'` (it has no `'error'` state at
all), while the `part_001` variant's `catch` block sets the state to
`'error'`, drops the socket and rethrows. -/
theorem c4_amended (m : Server.Sessions) (sidOpt : Option String) (e : String)
    (hfresh : m.get (jsOrDefault sidOpt) = none)
    (s : P1.SessionData) (opts : P1.Opts) (e' : String) (now : Nat) :
    ((Server.createWhatsAppConnection m sidOpt (.error e)).result = .error e ∧
      (Server.createWhatsAppConnection m sidOpt (.error e)).sessions.get
          (jsOrDefault sidOpt) = some Server.initialSessionData ∧
      Server.initialSessionData.connectionStatus = "disconnected") ∧
    ((P1.createWhatsAppConnection s opts (.error e') now).2 = .error e' ∧
      (P1.createWhatsAppConnection s opts (.error e') now).1.status = "error" ∧
      (P1.createWhatsAppConnection s opts (.error e') now).1.socket = none) := by
  constructor
  · have hstep :
        Server.createWhatsAppConnection m sidOpt (.error e) =
          { sessions := (m.set (jsOrDefault sidOpt)
                Server.initialSessionData).set (jsOrDefault sidOpt)
                Server.initialSessionData
            result := .error e
            cleanupCalled := false, socketCreated := false } := by
      simp only [Server.createWhatsAppConnection, Server.getOrCreateSession,
        Server.connectFresh, hfresh]
      simp [Server.initialSessionData, Server.Sessions.get_set]
    rw [hstep]
    refine ⟨rfl, ?_, rfl⟩
    rw [Server.Sessions.get_set, if_pos rfl]
  · unfold P1.createWhatsAppConnection
    dsimp only
    exact ⟨rfl, rfl, rfl⟩

/-- C4 witness: concrete credential failures — `src/server.js` on an empty
registry surfaces the error with the session `'disconnected'`; `part_001`
on a fresh record surfaces the error with status `'error'`. -/
theorem c4_amended_witness :
    ((Server.createWhatsAppConnection Server.Sessions.empty (some "w")
        (.error "EIO")).result = .error "EIO" ∧
      (Server.createWhatsAppConnection Server.Sessions.empty (some "w")
        (.error "EIO")).sessions.get "w" = some Server.initialSessionData ∧
      Server.initialSessionData.connectionStatus = "disconnected") ∧
    ((P1.createWhatsAppConnection
        { socket := none, qr := none, status := "disconnected", phone := none
          retryCount := 0, lastQrTime := none }
        { force := false, fresh := false } (.error "EIO") 0).2 = .error "EIO" ∧
      (P1.createWhatsAppConnection
        { socket := none, qr := none, status := "disconnected", phone := none
          retryCount := 0, lastQrTime := none }
        { force := false, fresh := false } (.error "EIO") 0).1.status = "error" ∧
      (P1.createWhatsAppConnection
        { socket := none, qr := none, status := "disconnected", phone := none
          retryCount := 0, lastQrTime := none }
        { force := false, fresh := false } (.error "EIO") 0).1.socket = none) :=
  c4_amended Server.Sessions.empty (some "w") "EIO" rfl
    { socket := none, qr := none, status := "disconnected", phone := none
      retryCount := 0, lastQrTime := none }
    { force := false, fresh := false } "EIO" 0

/-! ### C8: webhook delivery retry discipline -/

/-- C8 counterexample: with a webhook URL configured and every attempt
answered by a non-2xx response whose body parses as JSON, `sendWebhook`
makes its 3 attempts back to back with zero inter-attempt delay — the
2000 ms retry delay sits only inside the `catch` block, so the claimed
delay after a non-2xx (non-throwing) response never happens. -/
theorem c8_webhook_counterexample :
    Server.sendWebhook (some "https://hook.example/wh")
        (fun _ => .httpFail true) =
      .ok { attempts := 3, gaps := [0, 0], delivered := false } := by
  rfl

/-- C8 (amended): webhook delivery is a no-op when no destination is
configured; otherwise it makes at most 3 total attempts and never
propagates an error to the caller; the 2000 ms inter-attempt delay occurs
exactly before those follow-up attempts that follow a *thrown* failure
(transport error, or a non-2xx response whose body fails to parse as JSON)
— a non-2xx response with a JSON body is retried immediately with no
delay. -/
theorem c8_webhook_amended (url : Option String)
    (o : Nat → Server.AttemptOutcome) :
    (jsFalsyStr url = true →
      Server.sendWebhook url o =
        .ok { attempts := 0, gaps := [], delivered := false }) ∧
    (jsFalsyStr url = false →
      ∃ t, Server.sendWebhook url o = .ok t ∧ t.attempts ≤ 3 ∧
        (∀ i, t.gaps.get? i = some 2000 ↔
          i + 2 ≤ t.attempts ∧ (o i).thrown = true)) := by
  constructor
  · intro h
    simp [Server.sendWebhook, h]
  · intro h
    have hr : List.range 3 = [0, 1, 2] := rfl
    simp only [Server.sendWebhook, h, Bool.false_eq_true, if_false, hr]
    by_cases hok0 : o 0 = .ok <;> by_cases hok1 : o 1 = .ok <;>
      by_cases hok2 : o 2 = .ok <;>
      by_cases hth0 : (o 0).thrown = true <;>
      by_cases hth1 : (o 1).thrown = true <;>
      refine ⟨_, rfl, ?_, ?_⟩ <;>
      simp only [Server.webhookLoop, hok0, hok1, hok2, hth0, hth1,
        if_true, if_false, true_and, false_and, and_true, and_false,
        if_pos, Nat.lt_irrefl] <;>
      try decide
    all_goals
      intro i
      rcases i with _ | _ | n <;>
        simp_all [Server.webhookLoop, List.get?]

/-- C8 witness: an unconfigured destination is a no-op, and a configured
destination with every attempt throwing yields exactly 3 attempts with the
2000 ms delay before attempts 2 and 3. -/
theorem c8_webhook_amended_witness :
    Server.sendWebhook none (fun _ => .netFail) =
      .ok { attempts := 0, gaps := [], delivered := false } ∧
    ∃ t, Server.sendWebhook (some "https://hook.example/wh")
        (fun _ => .netFail) = .ok t ∧ t.attempts ≤ 3 ∧
      (∀ i, t.gaps.get? i = some 2000 ↔
        i + 2 ≤ t.attempts ∧
          ((fun _ => Server.AttemptOutcome.netFail) i).thrown = true) :=
  ⟨(c8_webhook_amended none (fun _ => .netFail)).1 rfl,
   (c8_webhook_amended (some "https://hook.example/wh")
      (fun _ => .netFail)).2 rfl⟩

/-! ### C1: the reconnect-attempt cap -/

theorem Server.onClose_attempts_cases (d : Server.SessionData) (c : Option Nat) :
    ((Server.onClose d c).1.reconnectAttempts = d.reconnectAttempts + 1 ∧
      (Server.onClose d c).2.1 = true ∧ d.reconnectAttempts < 3) ∨
    ((Server.onClose d c).1.reconnectAttempts = d.reconnectAttempts ∧
      (Server.onClose d c).2.1 = false) := by
  unfold Server.onClose
  dsimp only
  split
  · rename_i hcond
    exact Or.inl ⟨rfl, rfl, hcond.2⟩
  · exact Or.inr ⟨rfl, rfl⟩

theorem Server.mapInv_cleanup (m : Server.Sessions) (sid : String)
    (h : Server.MapInv m) : Server.MapInv (Server.cleanupSession m sid) := by
  intro k d' hk
  unfold Server.cleanupSession at hk
  cases hg : m.get sid with
  | none => rw [hg] at hk; exact h k d' hk
  | some d0 =>
      rw [hg] at hk
      rw [Server.Sessions.get_set] at hk
      split_ifs at hk with hks
      · have hv := Option.some.inj hk
        rw [← hv]
        exact Nat.zero_le 3
      · exact h k d' hk

theorem Server.mapInv_set_reset (m : Server.Sessions) (sid : String)
    (v : Server.SessionData) (hv : v.reconnectAttempts ≤ 3)
    (h : Server.MapInv m) : Server.MapInv (m.set sid v) := by
  intro k d' hk
  rw [Server.Sessions.get_set] at hk
  split_ifs at hk with hks
  · have he := Option.some.inj hk
    rw [← he]
    exact hv
  · exact h k d' hk

theorem Server.mapInv_connectFresh (m : Server.Sessions) (sid : String)
    (b : Bool) (al : Except String Unit) (h : Server.MapInv m) :
    Server.MapInv (Server.connectFresh m sid b al).sessions := by
  intro k d' hk
  unfold Server.connectFresh at hk
  cases hal : al with
  | error e =>
      rw [hal] at hk
      dsimp only at hk
      exact Server.mapInv_set_reset m sid _ (Nat.zero_le 3) h k d' hk
  | ok u =>
      rw [hal] at hk
      dsimp only at hk
      refine Server.mapInv_set_reset _ sid _ (Nat.zero_le 3) ?_ k d' hk
      exact Server.mapInv_set_reset m sid _ (Nat.zero_le 3) h

theorem Server.mapInv_connect (m : Server.Sessions) (s : Option String)
    (al : Except String Unit) (h : Server.MapInv m) :
    Server.MapInv (Server.createWhatsAppConnection m s al).sessions := by
  intro k d' hk
  cases hg : m.get (jsOrDefault s) with
  | some d =>
      simp only [Server.createWhatsAppConnection, Server.getOrCreateSession,
        hg] at hk
      cases hsock : d.sock with
      | some sk =>
          simp only [hsock] at hk
          by_cases hguard :
              (sk.user.isSome && decide (d.connectionStatus = "connected")) = true
          · rw [if_pos hguard] at hk
            exact h k d' hk
          · rw [if_neg hguard] at hk
            have hs2 : (some sk : Option Server.Sock).isSome = true := rfl
            rw [if_pos hs2] at hk
            exact Server.mapInv_connectFresh _ _ _ _
              (Server.mapInv_cleanup m (jsOrDefault s) h) k d' hk
      | none =>
          simp only [hsock, Option.isSome_none, Bool.false_eq_true,
            if_false] at hk
          exact Server.mapInv_connectFresh _ _ _ _ h k d' hk
  | none =>
      simp only [Server.createWhatsAppConnection, Server.getOrCreateSession,
        hg, Server.initialSessionData, Option.isSome_none, Bool.false_eq_true,
        if_false] at hk
      refine Server.mapInv_connectFresh _ _ _ _ ?_ k d' hk
      exact Server.mapInv_set_reset m (jsOrDefault s) _ (Nat.zero_le 3) h

theorem Server.mapInv_step (st : Server.TraceState) (e : Server.Ev)
    (h : Server.MapInv st.sessions) : Server.MapInv (Server.stepEv st e).sessions := by
  cases e with
  | close c =>
      cases hg : st.sessions.get Server.traceSid with
      | none =>
          have hid : Server.stepEv st (.close c) = st := by
            unfold Server.stepEv
            rw [hg]
          rw [hid]
          exact h
      | some d =>
          intro k d' hk
          unfold Server.stepEv at hk
          rw [hg] at hk
          dsimp only at hk
          rw [Server.Sessions.get_set] at hk
          split_ifs at hk with hks
          · have hv := Option.some.inj hk
            rw [← hv]
            have hd := h Server.traceSid d hg
            rcases Server.onClose_attempts_cases d c with ⟨ha, _, hlt⟩ | ⟨ha, _⟩
            · rw [ha]; omega
            · rw [ha]; exact hd
          · exact h k d' hk
  | timerFire =>
      by_cases hp : st.pendingTimers = 0
      · have hid : Server.stepEv st .timerFire = st := by
          unfold Server.stepEv
          rw [if_pos hp]
        rw [hid]
        exact h
      · intro k d' hk
        unfold Server.stepEv at hk
        rw [if_neg hp] at hk
        exact Server.mapInv_connect st.sessions (some Server.traceSid)
          (.ok ()) h k d' hk

theorem Server.mapInv_initTrace : Server.MapInv Server.initTrace.sessions := by
  intro k d hk
  unfold Server.initTrace at hk
  rw [Server.Sessions.get_set] at hk
  split_ifs at hk with hks
  · have hv := Option.some.inj hk
    rw [← hv]
    exact Nat.zero_le 3
  · exact absurd hk (by simp [Server.Sessions.empty, Server.Sessions.get])

theorem Server.mapInv_foldl (es : List Server.Ev) (st : Server.TraceState)
    (h : Server.MapInv st.sessions) :
    Server.MapInv (es.foldl Server.stepEv st).sessions := by
  induction es generalizing st with
  | nil => exact h
  | cons e rest ih => exact ih (Server.stepEv st e) (Server.mapInv_step st e h)

theorem Server.closeOnly_total_le (es : List Server.Ev) (st : Server.TraceState)
    (hc : ∀ e ∈ es, e.isClose = true)
    (h : ∃ d, st.sessions.get Server.traceSid = some d ∧
      st.totalScheduled ≤ d.reconnectAttempts) :
    ∃ d, (es.foldl Server.stepEv st).sessions.get Server.traceSid = some d ∧
      (es.foldl Server.stepEv st).totalScheduled ≤ d.reconnectAttempts := by
  induction es generalizing st with
  | nil => exact h
  | cons e rest ih =>
      obtain ⟨d, hget, hle⟩ := h
      have hcr : ∀ e' ∈ rest, e'.isClose = true :=
        fun e' he' => hc e' (List.mem_cons_of_mem e he')
      have hce : e.isClose = true := hc e (List.mem_cons_self e rest)
      cases e with
      | timerFire => simp [Server.Ev.isClose] at hce
      | close c =>
          have hstep : ∃ d2,
              (Server.stepEv st (.close c)).sessions.get Server.traceSid = some d2 ∧
                (Server.stepEv st (.close c)).totalScheduled ≤ d2.reconnectAttempts := by
            unfold Server.stepEv
            rw [hget]
            dsimp only
            refine ⟨(Server.onClose d c).1, ?_, ?_⟩
            · rw [Server.Sessions.get_set, if_pos rfl]
            · rcases Server.onClose_attempts_cases d c with ⟨ha, hs, _⟩ | ⟨ha, hs⟩
              · rw [ha, hs]; simp; omega
              · rw [ha, hs]; simp; omega
          exact ih (Server.stepEv st (.close c)) hcr hstep

/-- C1 counterexample: the claim caps the automatic reconnects of one
session at 3 in total, and asserts that once the cap is reached the session
stays disconnected until an explicit connect.  But each scheduled reconnect
that fires runs `createWhatsAppConnection`, which resets
`reconnectAttempts` to 0 (line 172), re-arming the cap: alternating
non-logged-out closures and timer firings yields a 4th scheduled automatic
reconnect (and would yield arbitrarily many). -/
theorem c1_reconnect_cap_counterexample :
    (Server.runTrace
        [.close none, .timerFire, .close none, .timerFire,
         .close none, .timerFire, .close none]).totalScheduled = 4 ∧
    3 < (Server.runTrace
        [.close none, .timerFire, .close none, .timerFire,
         .close none, .timerFire, .close none]).totalScheduled := by
  refine ⟨rfl, ?_⟩
  have h : (Server.runTrace
      [.close none, .timerFire, .close none, .timerFire,
       .close none, .timerFire, .close none]).totalScheduled = 4 := rfl
  rw [h]
  omega

/-- C1 (amended): `reconnectAttempts` itself never exceeds 3 in any
reachable registry state; a closure arriving when the counter has reached 3
schedules no reconnect; and over closes alone — with no scheduled reconnect
firing in between — at most 3 automatic reconnects are scheduled in total.
The total over a session's lifetime is *not* bounded by 3, because each
automatic reconnect that fires resets the counter to 0 (the cap applies per
burst of closes between two connect calls, not to the session's life). -/
theorem c1_reconnect_cap_amended (es : List Server.Ev)
    (d : Server.SessionData) (c : Option Nat)
    (hcap : 3 ≤ d.reconnectAttempts)
    (hclose : ∀ e ∈ es, e.isClose = true) :
    (∀ k d', (Server.runTrace es).sessions.get k = some d' →
      d'.reconnectAttempts ≤ 3) ∧
    (Server.onClose d c).2.1 = false ∧
    (Server.runTrace es).totalScheduled ≤ 3 := by
  refine ⟨?_, ?_, ?_⟩
  · exact Server.mapInv_foldl es Server.initTrace Server.mapInv_initTrace
  · unfold Server.onClose
    dsimp only
    rw [if_neg]
    intro hcond
    omega
  · obtain ⟨d', hget, hle⟩ :=
      Server.closeOnly_total_le es Server.initTrace hclose
        ⟨Server.initialSessionData, by
          unfold Server.initTrace
          rw [Server.Sessions.get_set, if_pos rfl], Nat.zero_le 0⟩
    have hinv := Server.mapInv_foldl es Server.initTrace Server.mapInv_initTrace
    have := hinv Server.traceSid d' hget
    unfold Server.runTrace
    omega

/-- C1 witness: four straight non-logged-out closures (no timer fires in
between) schedule only 3 reconnects; a close at a counter of 3 schedules
nothing; and every record of the resulting registry respects the cap. -/
theorem c1_reconnect_cap_witness :
    (∀ k d', (Server.runTrace
        [.close none, .close none, .close none, .close none]).sessions.get k =
          some d' → d'.reconnectAttempts ≤ 3) ∧
    (Server.onClose
        { Server.initialSessionData with reconnectAttempts := 3 }
        (some 515)).2.1 = false ∧
    (Server.runTrace
        [.close none, .close none, .close none, .close none]).totalScheduled ≤ 3 :=
  c1_reconnect_cap_amended
    [.close none, .close none, .close none, .close none]
    { Server.initialSessionData with reconnectAttempts := 3 } (some 515)
    (by decide) (by decide)

end Baileys
